import Mathlib

/-!
Verification of the size-constrained PDF recompression core of `runner.py`
(`render_pages_to_images`, `compose_images_to_target_size`,
`iterative_render_and_compress`), shallowly embedded in Lean 4.

Modelling conventions:
* Python integers are `ℤ` (dpi, quality) or `ℕ` (byte sizes, pixel counts).
* Python float arithmetic in `compose_images_to_target_size`
  (`target_w_pt * dpi / 72`, `min(W/w, H/h)`, `int(...)`) is modelled with
  exact rational arithmetic (`ℚ`) followed by `Int.floor`; for positive
  operands Python `int()` truncation is floor.
* Pixel contents of a rasterized page are irrelevant to the search control
  flow; a document is abstracted to its page count, the per-page raster
  dimensions at each dpi, and a byte-size oracle `encSize dpi quality`
  giving `len(pdf_bytes)` of the encoder output at that configuration
  (the encoder is deterministic in `(canvases, quality)`, and for a fixed
  document the canvases are a function of dpi).
* The unbounded `while True` loop of `iterative_render_and_compress` is
  embedded with a fuel parameter; fuel `96` is proved sufficient below
  (the (dpi, quality) state space visited by the step policy has exactly
  96 elements), so the fuel never truncates the real loop.
* The crash of `canvases[0]` on an empty list (zero-page document) is the
  `Except.error` branch.
-/

namespace Compresspdf

/-- `MAX_TARGET_BYTES = 1 * 1024 * 1024` (runner.py line 28). -/
def MAX_TARGET_BYTES : ℕ := 1 * 1024 * 1024

/-- `TARGET_WIDTH_PT = 595` (runner.py line 29). -/
def TARGET_WIDTH_PT : ℕ := 595

/-- `TARGET_HEIGHT_PT = 842` (runner.py line 29). -/
def TARGET_HEIGHT_PT : ℕ := 842

/-- `START_DPI = 150` (runner.py line 31). -/
def START_DPI : ℤ := 150

/-- `MIN_DPI = 72` (runner.py line 31). -/
def MIN_DPI : ℤ := 72

/-- `START_JPEG_QUALITY = 85` (runner.py line 32). -/
def START_JPEG_QUALITY : ℤ := 85

/-- `MIN_JPEG_QUALITY = 30` (runner.py line 32). -/
def MIN_JPEG_QUALITY : ℤ := 30

/-- `DPI_STEP = 10` (runner.py line 33). -/
def DPI_STEP : ℤ := 10

/-- `QUALITY_STEP = 5` (runner.py line 33). -/
def QUALITY_STEP : ℤ := 5

/-- `int(target_pt * dpi / 72)`: canvas pixel dimension from a physical
dimension in points and the current dpi (runner.py line 150).  For
positive operands Python float `int()` truncation is the rational floor,
and `⌊pt * dpi / 72⌋ = (pt * dpi).div 72`, so we use integer division. -/
def targetPx (pt : ℕ) (dpi : ℤ) : ℕ := ((pt : ℤ) * dpi / 72).toNat

/-- `ratio = min(target_w_px / w, target_h_px / h)` (runner.py line 154),
in exact rational arithmetic. -/
def fitRatio (w h W H : ℕ) : ℚ := min ((W : ℚ) / (w : ℚ)) ((H : ℚ) / (h : ℚ))

/-- `new_w, new_h = int(w * ratio), int(h * ratio)` (runner.py line 155). -/
def fitDims (w h W H : ℕ) : ℕ × ℕ :=
  ((⌊(w : ℚ) * fitRatio w h W H⌋).toNat, (⌊(h : ℚ) * fitRatio w h W H⌋).toNat)

/-- The pixel dimensions of the canvases built by
`compose_images_to_target_size` (runner.py lines 150-159), one per input
image: the resized image itself is appended when it exactly fills the
target, otherwise the white canvas of the target size is. -/
def compose_canvases (images : List (ℕ × ℕ)) (target_w_pt target_h_pt : ℕ)
    (dpi : ℤ) : List (ℕ × ℕ) :=
  let W := targetPx target_w_pt dpi
  let H := targetPx target_h_pt dpi
  images.map (fun wh =>
    let nd := fitDims wh.1 wh.2 W H
    if nd.1 = W ∧ nd.2 = H then nd else (W, H))

/-- Abstraction of one source PDF for the search: its page count, the
raster dimensions `img.size` of each page at a given dpi, and the byte
length of the encoded output document at a given `(dpi, quality)`
configuration (the value of `len(pdf_bytes)` at runner.py line 170). -/
structure Doc where
  pageCount : ℕ
  rasterDims : ℕ → ℤ → ℕ × ℕ
  encSize : ℤ → ℤ → ℕ

/-- `render_pages_to_images` (runner.py lines 138-147): one raster per
page, in page order. -/
def render_pages_to_images (doc : Doc) (dpi : ℤ) : List (ℕ × ℕ) :=
  (List.range doc.pageCount).map (fun p => doc.rasterDims p dpi)

/-- `compose_images_to_target_size` (runner.py lines 149-163), abstracted
to the byte length of its output.  `canvases[0].save(...)` raises an
IndexError when the canvas list is empty (zero-page document); that is
the error branch here.  Otherwise the output length is the document's
size oracle at `(dpi, quality)`. -/
def compose_images_to_target_size (doc : Doc) (images : List (ℕ × ℕ))
    (target_w_pt target_h_pt : ℕ) (dpi jpeg_quality : ℤ) : Except String ℕ :=
  match compose_canvases images target_w_pt target_h_pt dpi with
  | [] => Except.error "IndexError: list index out of range"
  | _ :: _ => Except.ok (doc.encSize dpi jpeg_quality)

/-- The loop body of `iterative_render_and_compress` (runner.py lines
167-180), with fuel.  Returns `(size, dpi, q)` of the terminating
attempt, or the propagated error of a failing attempt. -/
def iterGo (doc : Doc) (w h : ℕ) : ℕ → ℤ → ℤ → Except String (ℕ × ℤ × ℤ)
  | 0, _, _ => Except.error "fuel exhausted"
  | fuel + 1, dpi, q =>
    match compose_images_to_target_size doc (render_pages_to_images doc dpi)
        w h dpi q with
    | Except.error e => Except.error e
    | Except.ok size =>
      if size ≤ MAX_TARGET_BYTES then Except.ok (size, dpi, q)
      else if MIN_JPEG_QUALITY ≤ q - QUALITY_STEP then
        iterGo doc w h fuel dpi (q - QUALITY_STEP)
      else if MIN_DPI ≤ dpi - DPI_STEP then
        iterGo doc w h fuel (dpi - DPI_STEP) START_JPEG_QUALITY
      else Except.ok (size, dpi, q)

/-- Fuel for the search loop: the size of the (dpi, quality) state space
actually visited by the step policy (proved sufficient below), so the
fuel embedding never truncates the unbounded `while True` loop. -/
def iterFuel : ℕ := 96

/-- `iterative_render_and_compress` (runner.py lines 165-180): the search
starts at `(START_DPI, START_JPEG_QUALITY)`. -/
def iterative_render_and_compress (doc : Doc) (w h : ℕ) :
    Except String (ℕ × ℤ × ℤ) :=
  iterGo doc w h iterFuel START_DPI START_JPEG_QUALITY

/-- The `(dpi, quality)` configurations attempted by the loop, in order:
one entry per execution of the loop body (a full render+compose+encode
attempt). -/
def iterVisited (doc : Doc) (w h : ℕ) : ℕ → ℤ → ℤ → List (ℤ × ℤ)
  | 0, _, _ => []
  | fuel + 1, dpi, q =>
    (dpi, q) ::
      (match compose_images_to_target_size doc
          (render_pages_to_images doc dpi) w h dpi q with
      | Except.error _ => []
      | Except.ok size =>
        if size ≤ MAX_TARGET_BYTES then []
        else if MIN_JPEG_QUALITY ≤ q - QUALITY_STEP then
          iterVisited doc w h fuel dpi (q - QUALITY_STEP)
        else if MIN_DPI ≤ dpi - DPI_STEP then
          iterVisited doc w h fuel (dpi - DPI_STEP) START_JPEG_QUALITY
        else [])

/-- The full deterministic traversal order over `(dpi, quality)`
configurations of the step policy, independent of any document: quality
is stepped down first, then dpi with quality reset. -/
def configsFrom : ℕ → ℤ → ℤ → List (ℤ × ℤ)
  | 0, _, _ => []
  | fuel + 1, dpi, q =>
    (dpi, q) ::
      (if MIN_JPEG_QUALITY ≤ q - QUALITY_STEP then
        configsFrom fuel dpi (q - QUALITY_STEP)
      else if MIN_DPI ≤ dpi - DPI_STEP then
        configsFrom fuel (dpi - DPI_STEP) START_JPEG_QUALITY
      else [])

/-- All configurations in search order, from the initial state. -/
def allConfigs : List (ℤ × ℤ) := configsFrom iterFuel START_DPI START_JPEG_QUALITY

/-- The reachable-state invariant of the search loop: both coordinates
are between their floor and start values and are reached from the start
value by whole steps. -/
def GoodState (dpi q : ℤ) : Prop :=
  (MIN_DPI ≤ dpi ∧ dpi ≤ START_DPI ∧ DPI_STEP ∣ (START_DPI - dpi)) ∧
  (MIN_JPEG_QUALITY ≤ q ∧ q ≤ START_JPEG_QUALITY ∧
    QUALITY_STEP ∣ (START_JPEG_QUALITY - q))

/-- Number of loop-body executions still possible from state `(dpi, q)`:
a strictly decreasing measure of the transition policy. -/
def movesLeft (dpi q : ℤ) : ℕ :=
  ((dpi - 72).toNat / 10) * 12 + (q - 30).toNat / 5 + 1

/-- `True` iff the encoded size of `doc` at configuration `p` exceeds the
byte budget. -/
def overBudget (doc : Doc) : ℤ × ℤ → Bool :=
  fun p => decide (MAX_TARGET_BYTES < doc.encSize p.1 p.2)

/-- The transition relation between consecutive attempts of the search:
the earlier attempt exceeded the budget, and the later state follows the
two-branch step policy (quality first, then dpi with quality reset). -/
def stepRel (doc : Doc) (p p' : ℤ × ℤ) : Prop :=
  MAX_TARGET_BYTES < doc.encSize p.1 p.2 ∧
    ((MIN_JPEG_QUALITY ≤ p.2 - QUALITY_STEP ∧
        p' = (p.1, p.2 - QUALITY_STEP)) ∨
      (¬ MIN_JPEG_QUALITY ≤ p.2 - QUALITY_STEP ∧
        MIN_DPI ≤ p.1 - DPI_STEP ∧
        p' = (p.1 - DPI_STEP, START_JPEG_QUALITY)))

/-- Monotone ordering of attempts: dpi non-increasing, and quality
non-increasing whenever dpi is unchanged. -/
def monoPair (p p' : ℤ × ℤ) : Prop :=
  p'.1 ≤ p.1 ∧ (p'.1 = p.1 → p'.2 ≤ p.2)

/-- An RGB pixel value. -/
def Color : Type := ℕ × ℕ × ℕ

/-- Solid white, the canvas background (runner.py line 157). -/
def white : Color := (255, 255, 255)

/-- A pixel image: dimensions plus pixel contents. -/
structure Img where
  w : ℕ
  h : ℕ
  pix : ℕ → ℕ → Color

/-- `Image.new("RGB", (W, H), (255, 255, 255))` (runner.py line 157). -/
def newCanvas (W H : ℕ) : Img := ⟨W, H, fun _ _ => white⟩

/-- `base.paste(im, (ox, oy))` (runner.py line 158): pixels inside the
pasted rectangle come from `im`, the rest from `base`. -/
def paste (base im : Img) (ox oy : ℕ) : Img :=
  ⟨base.w, base.h, fun x y =>
    if ox ≤ x ∧ x < ox + im.w ∧ oy ≤ y ∧ y < oy + im.h then
      im.pix (x - ox) (y - oy)
    else base.pix x y⟩

/-- The page appended to the canvas list for one already-resized raster
(runner.py lines 157-159): the white canvas with the raster pasted at the
centered integer-floor margins, except that the resized raster itself is
used when it exactly fills the canvas. -/
def composePage (resized : Img) (W H : ℕ) : Img :=
  if resized.w = W ∧ resized.h = H then resized
  else paste (newCanvas W H) resized ((W - resized.w) / 2) ((H - resized.h) / 2)

/-- The pixel grid of an image, row by row: two images with the same
dimensions are pixel-for-pixel identical iff their grids are equal. -/
def Img.grid (im : Img) : List (List Color) :=
  (List.range im.h).map (fun y => (List.range im.w).map (fun x => im.pix x y))

/-- A one-page document all of whose encodings exceed the byte budget. -/
def docOver : Doc :=
  ⟨1, fun _ _ => (1, 1), fun _ _ => MAX_TARGET_BYTES + 1⟩

/-- A one-page document whose first encoding is already within budget. -/
def docUnder : Doc := ⟨1, fun _ _ => (1, 1), fun _ _ => 0⟩

/-- A zero-page document. -/
def docEmpty : Doc := ⟨0, fun _ _ => (0, 0), fun _ _ => 0⟩

/-- A concrete 2×3 image used to instantiate the composition theorems. -/
def imgW : Img := ⟨2, 3, fun x y => (x, y, x + y)⟩

end Compresspdf

namespace Compresspdf

lemma goodState_start : GoodState START_DPI START_JPEG_QUALITY := by
  simp only [GoodState, MIN_DPI, START_DPI, DPI_STEP, MIN_JPEG_QUALITY,
    START_JPEG_QUALITY, QUALITY_STEP]
  omega

lemma goodState_qstep {d q : ℤ} (hg : GoodState d q)
    (hq : MIN_JPEG_QUALITY ≤ q - QUALITY_STEP) :
    GoodState d (q - QUALITY_STEP) := by
  simp only [GoodState, MIN_DPI, START_DPI, DPI_STEP, MIN_JPEG_QUALITY,
    START_JPEG_QUALITY, QUALITY_STEP] at *
  omega

lemma goodState_dstep {d q : ℤ} (hg : GoodState d q)
    (hd : MIN_DPI ≤ d - DPI_STEP) :
    GoodState (d - DPI_STEP) START_JPEG_QUALITY := by
  simp only [GoodState, MIN_DPI, START_DPI, DPI_STEP, MIN_JPEG_QUALITY,
    START_JPEG_QUALITY, QUALITY_STEP] at *
  omega

lemma goodState_floor {d q : ℤ} (hg : GoodState d q)
    (hq : ¬ MIN_JPEG_QUALITY ≤ q - QUALITY_STEP)
    (hd : ¬ MIN_DPI ≤ d - DPI_STEP) : d = 80 ∧ q = 30 := by
  simp only [GoodState, MIN_DPI, START_DPI, DPI_STEP, MIN_JPEG_QUALITY,
    START_JPEG_QUALITY, QUALITY_STEP] at *
  omega

lemma movesLeft_pos (d q : ℤ) : 1 ≤ movesLeft d q := by
  simp only [movesLeft]
  omega

lemma movesLeft_qstep {d q : ℤ} (hg : GoodState d q)
    (hq : MIN_JPEG_QUALITY ≤ q - QUALITY_STEP) :
    movesLeft d (q - QUALITY_STEP) < movesLeft d q := by
  simp only [GoodState, MIN_DPI, START_DPI, DPI_STEP, MIN_JPEG_QUALITY,
    START_JPEG_QUALITY, QUALITY_STEP, movesLeft] at *
  omega

lemma movesLeft_dstep {d q : ℤ} (hg : GoodState d q)
    (hq : ¬ MIN_JPEG_QUALITY ≤ q - QUALITY_STEP)
    (hd : MIN_DPI ≤ d - DPI_STEP) :
    movesLeft (d - DPI_STEP) START_JPEG_QUALITY < movesLeft d q := by
  simp only [GoodState, MIN_DPI, START_DPI, DPI_STEP, MIN_JPEG_QUALITY,
    START_JPEG_QUALITY, QUALITY_STEP, movesLeft] at *
  omega

lemma compose_ok {doc : Doc} (hpc : doc.pageCount ≠ 0) (wpt hpt : ℕ)
    (dpi q : ℤ) :
    compose_images_to_target_size doc (render_pages_to_images doc dpi)
      wpt hpt dpi q = Except.ok (doc.encSize dpi q) := by
  obtain ⟨n, hn⟩ := Nat.exists_eq_succ_of_ne_zero hpc
  simp [compose_images_to_target_size, compose_canvases,
    render_pages_to_images, hn, List.range_succ_eq_map]

lemma compose_empty {doc : Doc} (hpc : doc.pageCount = 0) (wpt hpt : ℕ)
    (dpi q : ℤ) :
    compose_images_to_target_size doc (render_pages_to_images doc dpi)
      wpt hpt dpi q = Except.error "IndexError: list index out of range" := by
  simp [compose_images_to_target_size, compose_canvases,
    render_pages_to_images, hpc]

lemma compose_ok_val {doc : Doc} {images : List (ℕ × ℕ)} {wpt hpt : ℕ}
    {dpi q : ℤ} {v : ℕ}
    (h : compose_images_to_target_size doc images wpt hpt dpi q
      = Except.ok v) : v = doc.encSize dpi q := by
  unfold compose_images_to_target_size at h
  rcases hc : compose_canvases images wpt hpt dpi with _ | ⟨a, l⟩ <;>
    rw [hc] at h <;> simp_all

lemma iterGo_empty {doc : Doc} (hpc : doc.pageCount = 0) (w h : ℕ)
    (fuel : ℕ) (d q : ℤ) :
    iterGo doc w h (fuel + 1) d q
      = Except.error "IndexError: list index out of range" := by
  simp [iterGo, compose_empty hpc]

lemma iterGo_ok_inv (doc : Doc) (w h : ℕ) :
    ∀ (fuel : ℕ) (d q : ℤ) (s : ℕ) (d' q' : ℤ), GoodState d q →
      iterGo doc w h fuel d q = Except.ok (s, d', q') →
      GoodState d' q' ∧ s = doc.encSize d' q' ∧
        (MAX_TARGET_BYTES < s → d' = 80 ∧ q' = 30) := by
  intro fuel
  induction fuel with
  | zero => intro d q s d' q' hg h; simp [iterGo] at h
  | succ fuel ih =>
    intro d q s d' q' hg h
    by_cases hpc : doc.pageCount = 0
    · rw [iterGo_empty hpc] at h; simp at h
    · rw [iterGo, compose_ok hpc] at h
      simp only [] at h
      split_ifs at h with h1 h2 h3
      · simp only [Except.ok.injEq, Prod.mk.injEq] at h
        obtain ⟨hs, hd, hq⟩ := h
        subst hd; subst hq; subst hs
        exact ⟨hg, rfl, fun hB => absurd h1 (by omega)⟩
      · exact ih d (q - QUALITY_STEP) s d' q' (goodState_qstep hg h2) h
      · exact ih (d - DPI_STEP) START_JPEG_QUALITY s d' q'
          (goodState_dstep hg h3) h
      · simp only [Except.ok.injEq, Prod.mk.injEq] at h
        obtain ⟨hs, hd, hq⟩ := h
        subst hd; subst hq; subst hs
        exact ⟨hg, rfl, fun _ => goodState_floor hg h2 h3⟩

lemma iterGo_isOk (doc : Doc) (w h : ℕ) (hpc : doc.pageCount ≠ 0) :
    ∀ (fuel : ℕ) (d q : ℤ), GoodState d q → movesLeft d q ≤ fuel →
      ∃ r, iterGo doc w h fuel d q = Except.ok r := by
  intro fuel
  induction fuel with
  | zero =>
    intro d q hg hm
    have := movesLeft_pos d q
    omega
  | succ fuel ih =>
    intro d q hg hm
    rw [iterGo, compose_ok hpc]
    simp only []
    split_ifs with h1 h2 h3
    · exact ⟨_, rfl⟩
    · exact ih d (q - QUALITY_STEP) (goodState_qstep hg h2)
        (by have := movesLeft_qstep hg h2; omega)
    · exact ih (d - DPI_STEP) START_JPEG_QUALITY (goodState_dstep hg h3)
        (by have := movesLeft_dstep hg h2 h3; omega)
    · exact ⟨_, rfl⟩

lemma iterVisited_length (doc : Doc) (w h : ℕ) :
    ∀ (fuel : ℕ) (d q : ℤ), GoodState d q →
      (iterVisited doc w h fuel d q).length ≤ movesLeft d q := by
  intro fuel
  induction fuel with
  | zero => intro d q hg; simp [iterVisited]
  | succ fuel ih =>
    intro d q hg
    rw [iterVisited]
    rcases hc : compose_images_to_target_size doc
        (render_pages_to_images doc d) w h d q with e | sz
    · simpa using movesLeft_pos d q
    · simp only [List.length_cons]
      split_ifs with h1 h2 h3
      · simpa using movesLeft_pos d q
      · have := ih d (q - QUALITY_STEP) (goodState_qstep hg h2)
        have := movesLeft_qstep hg h2
        omega
      · have := ih (d - DPI_STEP) START_JPEG_QUALITY (goodState_dstep hg h3)
        have := movesLeft_dstep hg h2 h3
        omega
      · simpa using movesLeft_pos d q

lemma iterVisited_good (doc : Doc) (w h : ℕ) :
    ∀ (fuel : ℕ) (d q : ℤ), GoodState d q →
      ∀ p ∈ iterVisited doc w h fuel d q, GoodState p.1 p.2 := by
  intro fuel
  induction fuel with
  | zero => intro d q hg p hp; simp [iterVisited] at hp
  | succ fuel ih =>
    intro d q hg p hp
    rw [iterVisited] at hp
    rcases hc : compose_images_to_target_size doc
        (render_pages_to_images doc d) w h d q with e | sz <;> rw [hc] at hp
    · simp at hp; subst hp; exact hg
    · simp only [List.mem_cons] at hp
      rcases hp with rfl | hp
      · exact hg
      · split_ifs at hp with h1 h2 h3
        · simp at hp
        · exact ih d (q - QUALITY_STEP) (goodState_qstep hg h2) p hp
        · exact ih (d - DPI_STEP) START_JPEG_QUALITY (goodState_dstep hg h3) p hp
        · simp at hp

lemma iterVisited_head (doc : Doc) (w h : ℕ) (fuel : ℕ) (d q : ℤ)
    {p : ℤ × ℤ} (hp : (iterVisited doc w h fuel d q).head? = some p) :
    p = (d, q) := by
  cases fuel with
  | zero => simp [iterVisited] at hp
  | succ fuel => rw [iterVisited] at hp; simp at hp; exact hp.symm

lemma iterVisited_chain (doc : Doc) (w h : ℕ) :
    ∀ (fuel : ℕ) (d q : ℤ),
      List.Chain' (stepRel doc) (iterVisited doc w h fuel d q) := by
  intro fuel
  induction fuel with
  | zero => intro d q; simp [iterVisited]
  | succ fuel ih =>
    intro d q
    rw [iterVisited]
    rcases hc : compose_images_to_target_size doc
        (render_pages_to_images doc d) w h d q with e | sz
    · exact List.chain'_singleton _
    · have hsz : sz = doc.encSize d q := compose_ok_val hc
      dsimp only
      split_ifs with h1 h2 h3
      · exact List.chain'_singleton _
      · rw [List.chain'_cons']
        refine ⟨fun y hy => ?_, ih d (q - QUALITY_STEP)⟩
        rw [iterVisited_head doc w h fuel d (q - QUALITY_STEP) hy]
        exact ⟨by dsimp only; omega, Or.inl ⟨h2, rfl⟩⟩
      · rw [List.chain'_cons']
        refine ⟨fun y hy => ?_, ih (d - DPI_STEP) START_JPEG_QUALITY⟩
        rw [iterVisited_head doc w h fuel (d - DPI_STEP) START_JPEG_QUALITY hy]
        exact ⟨by dsimp only; omega, Or.inr ⟨h2, h3, rfl⟩⟩
      · exact List.chain'_singleton _

lemma stepRel_mono {doc : Doc} {p p' : ℤ × ℤ} (h : stepRel doc p p') :
    monoPair p p' := by
  obtain ⟨-, h⟩ := h
  rcases h with ⟨hq, rfl⟩ | ⟨hq, hd, rfl⟩ <;>
    simp only [monoPair, QUALITY_STEP, DPI_STEP] <;> omega

lemma monoPair_trans : Transitive monoPair := by
  intro a b c hab hbc
  obtain ⟨h1, h2⟩ := hab
  obtain ⟨h3, h4⟩ := hbc
  exact ⟨le_trans h3 h1, fun he => le_trans (h4 (by omega)) (h2 (by omega))⟩

lemma iterGo_first (doc : Doc) (w h : ℕ) (hpc : doc.pageCount ≠ 0) :
    ∀ (fuel : ℕ) (d q : ℤ) (s : ℕ) (d' q' : ℤ),
      iterGo doc w h fuel d q = Except.ok (s, d', q') →
      s ≤ MAX_TARGET_BYTES →
      s = doc.encSize d' q' ∧
        ((configsFrom fuel d q).dropWhile (overBudget doc)).head?
          = some (d', q') ∧
        iterVisited doc w h fuel d q
          = (configsFrom fuel d q).takeWhile (overBudget doc) ++ [(d', q')] := by
  intro fuel
  induction fuel with
  | zero => intro d q s d' q' hgo hs; simp [iterGo] at hgo
  | succ fuel ih =>
    intro d q s d' q' hgo hs
    rw [iterGo, compose_ok hpc] at hgo
    rw [iterVisited, compose_ok hpc]
    rw [configsFrom]
    dsimp only at hgo ⊢
    split_ifs at hgo with h1 h2 h3
    · simp only [Except.ok.injEq, Prod.mk.injEq] at hgo
      obtain ⟨hsz, hd, hq⟩ := hgo
      subst hd; subst hq; subst hsz
      have hov : overBudget doc (d, q) = false := by
        simp only [overBudget, decide_eq_false_iff_not, not_lt]
        exact h1
      refine ⟨rfl, ?_, ?_⟩
      · rw [List.dropWhile_cons, hov]
        simp
      · rw [List.takeWhile_cons, hov]
        simp [h1]
    · have hov : overBudget doc (d, q) = true := by
        simp only [overBudget, decide_eq_true_eq]
        omega
      obtain ⟨hsz, hdrop, hvis⟩ := ih d (q - QUALITY_STEP) s d' q' hgo hs
      refine ⟨hsz, ?_, ?_⟩
      · rw [List.dropWhile_cons, hov, if_pos rfl, if_pos h2]
        exact hdrop
      · rw [List.takeWhile_cons, hov, if_pos rfl, if_pos h2, if_neg h1,
          if_pos h2]
        simp [hvis]
    · have hov : overBudget doc (d, q) = true := by
        simp only [overBudget, decide_eq_true_eq]
        omega
      obtain ⟨hsz, hdrop, hvis⟩ :=
        ih (d - DPI_STEP) START_JPEG_QUALITY s d' q' hgo hs
      refine ⟨hsz, ?_, ?_⟩
      · rw [List.dropWhile_cons, hov, if_pos rfl, if_neg h2, if_pos h3]
        exact hdrop
      · rw [List.takeWhile_cons, hov, if_pos rfl, if_neg h2, if_pos h3,
          if_neg h1, if_neg h2, if_pos h3]
        simp [hvis]
    · simp only [Except.ok.injEq, Prod.mk.injEq] at hgo
      obtain ⟨hsz, hd, hq⟩ := hgo
      omega

lemma iterGo_mem_visited (doc : Doc) (w h : ℕ) :
    ∀ (fuel : ℕ) (d q : ℤ) (s : ℕ) (d' q' : ℤ),
      iterGo doc w h fuel d q = Except.ok (s, d', q') →
      (d', q') ∈ iterVisited doc w h fuel d q := by
  intro fuel
  induction fuel with
  | zero => intro d q s d' q' hgo; simp [iterGo] at hgo
  | succ fuel ih =>
    intro d q s d' q' hgo
    rw [iterGo] at hgo
    rw [iterVisited]
    rcases hc : compose_images_to_target_size doc
        (render_pages_to_images doc d) w h d q with e | sz <;>
      rw [hc] at hgo
    · simp at hgo
    · dsimp only at hgo ⊢
      split_ifs at hgo with h1 h2 h3
      · simp only [Except.ok.injEq, Prod.mk.injEq] at hgo
        obtain ⟨-, hd, hq⟩ := hgo
        subst hd; subst hq
        exact List.mem_cons_self _ _
      · exact List.mem_cons_of_mem _
          (by rw [if_neg h1, if_pos h2]; exact ih d (q - QUALITY_STEP) s d' q' hgo)
      · exact List.mem_cons_of_mem _
          (by rw [if_neg h1, if_neg h2, if_pos h3]
              exact ih (d - DPI_STEP) START_JPEG_QUALITY s d' q' hgo)
      · simp only [Except.ok.injEq, Prod.mk.injEq] at hgo
        obtain ⟨-, hd, hq⟩ := hgo
        subst hd; subst hq
        exact List.mem_cons_self _ _

set_option maxRecDepth 40000 in
lemma docOver_eval : iterative_render_and_compress docOver 595 842
    = Except.ok (MAX_TARGET_BYTES + 1, 80, 30) := rfl

lemma docUnder_eval : iterative_render_and_compress docUnder 595 842
    = Except.ok (0, 150, 85) := rfl

set_option maxRecDepth 40000 in
lemma docOver_visited_len : (iterVisited docOver 595 842 96 150 85).length
    = 96 := rfl

set_option maxRecDepth 40000 in
lemma docOver_visited_len_ample :
    (iterVisited docOver 595 842 1000 150 85).length = 96 := rfl

lemma targetPx_595_150 : targetPx 595 150 = 1239 := by decide

lemma targetPx_842_150 : targetPx 842 150 = 1754 := by decide

lemma fitDims_unit_page : fitDims 1 1 1239 1754 = (1239, 1239) := by
  unfold fitDims fitRatio
  norm_num [min_def]
  try decide

lemma compose_canvases_unit :
    compose_canvases [(1, 1)] 595 842 150 = [(1239, 1754)] := by
  simp [compose_canvases, fitDims_unit_page, targetPx_595_150, targetPx_842_150]

lemma fitDims_two_one : fitDims 2 1 4 4 = (4, 2) := by
  unfold fitDims fitRatio
  norm_num [min_def]
  try decide

/-- C1, original claim refuted: on a document every encoding of which
exceeds the budget, the search returns dpi 80, not `MIN_DPI = 72` (the
quality does reach `MIN_JPEG_QUALITY`). -/
theorem c1_floor_counterexample :
    iterative_render_and_compress docOver 595 842
      = Except.ok (MAX_TARGET_BYTES + 1, 80, 30) ∧
    MAX_TARGET_BYTES < MAX_TARGET_BYTES + 1 ∧
    ¬ ((80 : ℤ) = MIN_DPI ∧ (30 : ℤ) = MIN_JPEG_QUALITY) := by
  refine ⟨docOver_eval, by omega, ?_⟩
  simp only [MIN_DPI, MIN_JPEG_QUALITY]
  omega

/-- C1 (amended): whenever `iterative_render_and_compress` returns a
result whose size exceeds `MAX_TARGET_BYTES`, the returned quality is
`MIN_JPEG_QUALITY = 30` but the returned dpi is `80` — the lowest dpi the
step policy reaches, since `START_DPI − MIN_DPI = 78` is not a multiple
of `DPI_STEP = 10` (so `MIN_DPI = 72` itself is never used). -/
theorem c1_floor_postcondition (doc : Doc) (w h : ℕ) (s : ℕ) (d q : ℤ)
    (hok : iterative_render_and_compress doc w h = Except.ok (s, d, q))
    (hover : MAX_TARGET_BYTES < s) : d = 80 ∧ q = MIN_JPEG_QUALITY :=
  (iterGo_ok_inv doc w h iterFuel START_DPI START_JPEG_QUALITY s d q
    goodState_start hok).2.2 hover

/-- C1 witness: the floor postcondition instantiated on `docOver`. -/
theorem c1_floor_witness :
    iterative_render_and_compress docOver 595 842
      = Except.ok (MAX_TARGET_BYTES + 1, 80, 30) ∧
    MAX_TARGET_BYTES < MAX_TARGET_BYTES + 1 ∧
    ((80 : ℤ) = 80 ∧ (30 : ℤ) = MIN_JPEG_QUALITY) :=
  ⟨docOver_eval, by omega,
    c1_floor_postcondition docOver 595 842 (MAX_TARGET_BYTES + 1) 80 30
      docOver_eval (by omega)⟩

/-- C9: a zero-page source document makes the search fail with the
index-out-of-range error of `canvases[0]` (the error branch of the
embedding); it never returns a SearchResult. -/
theorem c9_zero_page_error (doc : Doc) (w h : ℕ)
    (hpc : doc.pageCount = 0) :
    iterative_render_and_compress doc w h
      = Except.error "IndexError: list index out of range" := by
  rw [iterative_render_and_compress, show iterFuel = 95 + 1 from rfl,
    iterGo_empty hpc]

/-- C9 witness: the zero-page failure instantiated on `docEmpty`. -/
theorem c9_zero_page_witness :
    docEmpty.pageCount = 0 ∧
    iterative_render_and_compress docEmpty 595 842
      = Except.error "IndexError: list index out of range" :=
  ⟨rfl, c9_zero_page_error docEmpty 595 842 rfl⟩

/-- C10: if every visited configuration encodes over budget, the search
returns exactly the configuration
`(START_DPI − DPI_STEP·⌊(START_DPI−MIN_DPI)/DPI_STEP⌋,
  START_JPEG_QUALITY − QUALITY_STEP·⌊(START_JPEG_QUALITY−MIN_JPEG_QUALITY)/QUALITY_STEP⌋)
 = (80, 30)`; each floor itself is attained exactly when the
corresponding start−min gap is a multiple of the step. -/
theorem c10_exhausted_result (doc : Doc) (w h : ℕ)
    (hpc : doc.pageCount ≠ 0)
    (hover : ∀ p ∈ iterVisited doc w h iterFuel START_DPI START_JPEG_QUALITY,
      MAX_TARGET_BYTES < doc.encSize p.1 p.2) :
    iterative_render_and_compress doc w h
      = Except.ok
          (doc.encSize (START_DPI - DPI_STEP * ((START_DPI - MIN_DPI) / DPI_STEP))
            (START_JPEG_QUALITY
              - QUALITY_STEP * ((START_JPEG_QUALITY - MIN_JPEG_QUALITY) / QUALITY_STEP)),
          START_DPI - DPI_STEP * ((START_DPI - MIN_DPI) / DPI_STEP),
          START_JPEG_QUALITY
            - QUALITY_STEP * ((START_JPEG_QUALITY - MIN_JPEG_QUALITY) / QUALITY_STEP)) ∧
    ((START_DPI - DPI_STEP * ((START_DPI - MIN_DPI) / DPI_STEP) = MIN_DPI)
      ↔ DPI_STEP ∣ (START_DPI - MIN_DPI)) ∧
    ((START_JPEG_QUALITY
        - QUALITY_STEP * ((START_JPEG_QUALITY - MIN_JPEG_QUALITY) / QUALITY_STEP)
        = MIN_JPEG_QUALITY)
      ↔ QUALITY_STEP ∣ (START_JPEG_QUALITY - MIN_JPEG_QUALITY)) := by
  have hD : START_DPI - DPI_STEP * ((START_DPI - MIN_DPI) / DPI_STEP)
      = (80 : ℤ) := by decide
  have hQ : START_JPEG_QUALITY
      - QUALITY_STEP * ((START_JPEG_QUALITY - MIN_JPEG_QUALITY) / QUALITY_STEP)
      = (30 : ℤ) := by decide
  rw [hD, hQ]
  refine ⟨?_, ?_, ?_⟩
  · obtain ⟨r, hr⟩ := iterGo_isOk doc w h hpc iterFuel START_DPI
      START_JPEG_QUALITY goodState_start (by decide)
    obtain ⟨s, d, q⟩ := r
    obtain ⟨hg, hs, hfloor⟩ := iterGo_ok_inv doc w h iterFuel START_DPI
      START_JPEG_QUALITY s d q goodState_start hr
    have hmem : (d, q) ∈ iterVisited doc w h iterFuel START_DPI
        START_JPEG_QUALITY :=
      iterGo_mem_visited doc w h iterFuel START_DPI START_JPEG_QUALITY s d q hr
    have hov : MAX_TARGET_BYTES < s := by rw [hs]; exact hover (d, q) hmem
    obtain ⟨hd80, hq30⟩ := hfloor hov
    subst hd80; subst hq30
    rw [iterative_render_and_compress, hr, hs]
  · decide
  · decide

/-- C10 witness: the exhausted-search result instantiated on `docOver`. -/
theorem c10_exhausted_witness :
    iterative_render_and_compress docOver 595 842
      = Except.ok
          (docOver.encSize (START_DPI - DPI_STEP * ((START_DPI - MIN_DPI) / DPI_STEP))
            (START_JPEG_QUALITY
              - QUALITY_STEP * ((START_JPEG_QUALITY - MIN_JPEG_QUALITY) / QUALITY_STEP)),
          START_DPI - DPI_STEP * ((START_DPI - MIN_DPI) / DPI_STEP),
          START_JPEG_QUALITY
            - QUALITY_STEP * ((START_JPEG_QUALITY - MIN_JPEG_QUALITY) / QUALITY_STEP)) ∧
    ((START_DPI - DPI_STEP * ((START_DPI - MIN_DPI) / DPI_STEP) = MIN_DPI)
      ↔ DPI_STEP ∣ (START_DPI - MIN_DPI)) ∧
    ((START_JPEG_QUALITY
        - QUALITY_STEP * ((START_JPEG_QUALITY - MIN_JPEG_QUALITY) / QUALITY_STEP)
        = MIN_JPEG_QUALITY)
      ↔ QUALITY_STEP ∣ (START_JPEG_QUALITY - MIN_JPEG_QUALITY)) :=
  c10_exhausted_result docOver 595 842 (by decide)
    (fun _ _ => Nat.lt_succ_self _)

/-- C3, original claim refuted: with the configured constants the spec's
bound `⌈(START_QUALITY−MIN_QUALITY)/QUALITY_STEP⌉ ×
⌈(START_DPI−MIN_DPI)/DPI_STEP⌉` is `11 × 8 = 88`, but the worst case
performs 96 attempts (12 quality values per dpi, both endpoints
included, times 8 dpi values), shown here on `docOver` with fuel well
beyond the loop's actual length. -/
theorem c3_attempt_bound_counterexample :
    (⌈((START_JPEG_QUALITY - MIN_JPEG_QUALITY : ℤ) : ℚ) / ((QUALITY_STEP : ℤ) : ℚ)⌉
        * ⌈((START_DPI - MIN_DPI : ℤ) : ℚ) / ((DPI_STEP : ℤ) : ℚ)⌉ = 88) ∧
    (iterVisited docOver 595 842 96 150 85).length = 96 ∧
    (iterVisited docOver 595 842 1000 150 85).length = 96 ∧
    ¬ ((96 : ℕ) ≤ 88) := by
  refine ⟨?_, docOver_visited_len, docOver_visited_len_ample, by omega⟩
  have h1 : ((START_JPEG_QUALITY - MIN_JPEG_QUALITY : ℤ) : ℚ)
      / ((QUALITY_STEP : ℤ) : ℚ) = 11 := by
    simp only [START_JPEG_QUALITY, MIN_JPEG_QUALITY, QUALITY_STEP]
    norm_num
  have h2 : ((START_DPI - MIN_DPI : ℤ) : ℚ) / ((DPI_STEP : ℤ) : ℚ)
      = 39 / 5 := by
    simp only [START_DPI, MIN_DPI, DPI_STEP]
    norm_num
  rw [h1, h2]
  have h3 : ⌈(39 / 5 : ℚ)⌉ = 8 := by
    rw [Int.ceil_eq_iff] ; norm_num
  have h4 : ⌈(11 : ℚ)⌉ = 11 := by
    rw [Int.ceil_eq_iff] ; norm_num
  rw [h3, h4]
  norm_num

/-- C3 (amended): the number of attempts of one search run never exceeds
`(⌊(START_QUALITY−MIN_QUALITY)/QUALITY_STEP⌋ + 1) ×
(⌊(START_DPI−MIN_DPI)/DPI_STEP⌋ + 1) = 12 × 8 = 96` — the spec's
ceiling formula (88) undercounts, because both endpoints of the quality
range are attempted at every dpi — and on any document with at least one
page the search terminates with a result. -/
theorem c3_attempt_bound (doc : Doc) (w h : ℕ) (fuel : ℕ) :
    (iterVisited doc w h fuel START_DPI START_JPEG_QUALITY).length ≤ 96 ∧
    (doc.pageCount ≠ 0 →
      ∃ r, iterative_render_and_compress doc w h = Except.ok r) := by
  constructor
  · have hb := iterVisited_length doc w h fuel START_DPI START_JPEG_QUALITY
      goodState_start
    have hm : movesLeft START_DPI START_JPEG_QUALITY = 96 := by decide
    omega
  · intro hpc
    exact iterGo_isOk doc w h hpc iterFuel START_DPI START_JPEG_QUALITY
      goodState_start (by decide)

/-- C3 witness: the attempt bound and termination instantiated on
`docOver`. -/
theorem c3_attempt_bound_witness :
    (iterVisited docOver 595 842 96 START_DPI START_JPEG_QUALITY).length ≤ 96 ∧
    (∃ r, iterative_render_and_compress docOver 595 842 = Except.ok r) :=
  ⟨(c3_attempt_bound docOver 595 842 96).1,
    (c3_attempt_bound docOver 595 842 96).2 (by decide)⟩

/-- C4: a within-budget result is the first configuration of the
deterministic traversal order whose encoded size is within budget (every
configuration before it in `allConfigs` encodes over budget), and the
attempt trace stops exactly there. -/
theorem c4_first_success (doc : Doc) (w h : ℕ) (s : ℕ) (d q : ℤ)
    (hok : iterative_render_and_compress doc w h = Except.ok (s, d, q))
    (hbudget : s ≤ MAX_TARGET_BYTES) :
    s = doc.encSize d q ∧
    (allConfigs.dropWhile (overBudget doc)).head? = some (d, q) ∧
    iterVisited doc w h iterFuel START_DPI START_JPEG_QUALITY
      = allConfigs.takeWhile (overBudget doc) ++ [(d, q)] := by
  have hpc : doc.pageCount ≠ 0 := by
    intro hpc0
    rw [iterative_render_and_compress, show iterFuel = 95 + 1 from rfl,
      iterGo_empty hpc0] at hok
    simp at hok
  exact iterGo_first doc w h hpc iterFuel START_DPI START_JPEG_QUALITY
    s d q hok hbudget

/-- C4 witness: the first-success property instantiated on `docUnder`,
whose very first attempt is within budget. -/
theorem c4_first_success_witness :
    (0 : ℕ) = docUnder.encSize 150 85 ∧
    (allConfigs.dropWhile (overBudget docUnder)).head? = some (150, 85) ∧
    iterVisited docUnder 595 842 iterFuel START_DPI START_JPEG_QUALITY
      = allConfigs.takeWhile (overBudget docUnder) ++ [(150, 85)] :=
  c4_first_success docUnder 595 842 0 150 85 docUnder_eval (by decide)

/-- C5: consecutive attempts of one search run are related by the exact
step policy (the earlier attempt encoded over budget, then either
quality drops one step at unchanged dpi, or — when quality cannot drop
further — dpi drops one step and quality resets), and consequently the
attempt sequence is monotone: dpi non-increasing, and quality
non-increasing within a fixed dpi. -/
theorem c5_transition_monotone (doc : Doc) (w h : ℕ) :
    List.Chain' (stepRel doc)
      (iterVisited doc w h iterFuel START_DPI START_JPEG_QUALITY) ∧
    List.Pairwise monoPair
      (iterVisited doc w h iterFuel START_DPI START_JPEG_QUALITY) := by
  have hch := iterVisited_chain doc w h iterFuel START_DPI START_JPEG_QUALITY
  refine ⟨hch, ?_⟩
  have hmono : List.Chain' monoPair
      (iterVisited doc w h iterFuel START_DPI START_JPEG_QUALITY) :=
    hch.imp (fun a b => stepRel_mono)
  haveI : IsTrans (ℤ × ℤ) monoPair := ⟨fun _ _ _ hab hbc => monoPair_trans hab hbc⟩
  exact List.chain'_iff_pairwise.mp hmono

/-- C6: every attempted configuration stays inside the closed boxes
`[MIN_DPI, START_DPI] × [MIN_JPEG_QUALITY, START_JPEG_QUALITY]`. -/
theorem c6_state_bounds (doc : Doc) (w h : ℕ) (p : ℤ × ℤ)
    (hp : p ∈ iterVisited doc w h iterFuel START_DPI START_JPEG_QUALITY) :
    (MIN_DPI ≤ p.1 ∧ p.1 ≤ START_DPI) ∧
    (MIN_JPEG_QUALITY ≤ p.2 ∧ p.2 ≤ START_JPEG_QUALITY) := by
  have hg := iterVisited_good doc w h iterFuel START_DPI START_JPEG_QUALITY
    goodState_start p hp
  simp only [GoodState] at hg
  exact ⟨⟨hg.1.1, hg.1.2.1⟩, ⟨hg.2.1, hg.2.2.1⟩⟩

/-- C6 witness: the state bounds instantiated at the initial attempt of
`docUnder`. -/
theorem c6_state_bounds_witness :
    ((150, 85) : ℤ × ℤ) ∈
      iterVisited docUnder 595 842 iterFuel START_DPI START_JPEG_QUALITY ∧
    ((MIN_DPI ≤ (150 : ℤ) ∧ (150 : ℤ) ≤ START_DPI) ∧
      (MIN_JPEG_QUALITY ≤ (85 : ℤ) ∧ (85 : ℤ) ≤ START_JPEG_QUALITY)) :=
  ⟨by decide, c6_state_bounds docUnder 595 842 (150, 85) (by decide)⟩

/-- C7: fitting a positive raster `(w, h)` into canvas `(W, H)` with
`ratio = min(W/w, H/h)` and floor-truncated scaled dimensions never
exceeds the canvas, touches it in at least one axis (tight fit), and
preserves the aspect ratio within rounding: the cross product
`new_w·h − new_h·w` is smaller than `max w h` in absolute value. -/
theorem c7_aspect_fit (w h W H : ℕ) (hw : 0 < w) (hh : 0 < h) :
    (fitDims w h W H).1 ≤ W ∧ (fitDims w h W H).2 ≤ H ∧
    ((fitDims w h W H).1 = W ∨ (fitDims w h W H).2 = H) ∧
    |((fitDims w h W H).1 : ℤ) * (h : ℤ) - ((fitDims w h W H).2 : ℤ) * (w : ℤ)|
      < max (w : ℤ) (h : ℤ) := by
  have hw0 : (0 : ℚ) < (w : ℚ) := by exact_mod_cast hw
  have hh0 : (0 : ℚ) < (h : ℚ) := by exact_mod_cast hh
  have hr0 : 0 ≤ fitRatio w h W H := le_min (by positivity) (by positivity)
  have hwr : (w : ℚ) * fitRatio w h W H ≤ (W : ℚ) := by
    have hm : fitRatio w h W H ≤ (W : ℚ) / (w : ℚ) := min_le_left _ _
    have h2 := mul_le_mul_of_nonneg_left hm hw0.le
    have heq : (w : ℚ) * ((W : ℚ) / (w : ℚ)) = (W : ℚ) := by field_simp
    rwa [heq] at h2
  have hhr : (h : ℚ) * fitRatio w h W H ≤ (H : ℚ) := by
    have hm : fitRatio w h W H ≤ (H : ℚ) / (h : ℚ) := min_le_right _ _
    have h2 := mul_le_mul_of_nonneg_left hm hh0.le
    have heq : (h : ℚ) * ((H : ℚ) / (h : ℚ)) = (H : ℚ) := by field_simp
    rwa [heq] at h2
  have hfw0 : 0 ≤ ⌊(w : ℚ) * fitRatio w h W H⌋ :=
    Int.floor_nonneg.mpr (mul_nonneg hw0.le hr0)
  have hfh0 : 0 ≤ ⌊(h : ℚ) * fitRatio w h W H⌋ :=
    Int.floor_nonneg.mpr (mul_nonneg hh0.le hr0)
  simp only [fitDims]
  refine ⟨?_, ?_, ?_, ?_⟩
  · rw [Int.toNat_le]
    have hmono := Int.floor_mono hwr
    rwa [Int.floor_natCast] at hmono
  · rw [Int.toNat_le]
    have hmono := Int.floor_mono hhr
    rwa [Int.floor_natCast] at hmono
  · rcases le_total ((W : ℚ) / (w : ℚ)) ((H : ℚ) / (h : ℚ)) with hc | hc
    · left
      have hre : fitRatio w h W H = (W : ℚ) / (w : ℚ) := min_eq_left hc
      have hval : (w : ℚ) * fitRatio w h W H = (W : ℚ) := by
        rw [hre]; field_simp
      rw [hval, Int.floor_natCast]
      simp
    · right
      have hre : fitRatio w h W H = (H : ℚ) / (h : ℚ) := min_eq_right hc
      have hval : (h : ℚ) * fitRatio w h W H = (H : ℚ) := by
        rw [hre]; field_simp
      rw [hval, Int.floor_natCast]
      simp
  · have hna : ((⌊(w : ℚ) * fitRatio w h W H⌋.toNat : ℕ) : ℤ)
        = ⌊(w : ℚ) * fitRatio w h W H⌋ := Int.toNat_of_nonneg hfw0
    have hnb : ((⌊(h : ℚ) * fitRatio w h W H⌋.toNat : ℕ) : ℤ)
        = ⌊(h : ℚ) * fitRatio w h W H⌋ := Int.toNat_of_nonneg hfh0
    rw [hna, hnb, abs_lt]
    have t1 : (⌊(w : ℚ) * fitRatio w h W H⌋ : ℚ)
        ≤ (w : ℚ) * fitRatio w h W H := Int.floor_le _
    have t2 : (h : ℚ) * fitRatio w h W H - 1
        < (⌊(h : ℚ) * fitRatio w h W H⌋ : ℚ) := Int.sub_one_lt_floor _
    have t3 : (w : ℚ) * fitRatio w h W H - 1
        < (⌊(w : ℚ) * fitRatio w h W H⌋ : ℚ) := Int.sub_one_lt_floor _
    have t4 : (⌊(h : ℚ) * fitRatio w h W H⌋ : ℚ)
        ≤ (h : ℚ) * fitRatio w h W H := Int.floor_le _
    have hu : (⌊(w : ℚ) * fitRatio w h W H⌋ : ℚ) * (h : ℚ)
        - (⌊(h : ℚ) * fitRatio w h W H⌋ : ℚ) * (w : ℚ) < (w : ℚ) := by
      nlinarith [mul_le_mul_of_nonneg_right t1 hh0.le,
        mul_lt_mul_of_pos_right t2 hw0]
    have hl : -(h : ℚ) < (⌊(w : ℚ) * fitRatio w h W H⌋ : ℚ) * (h : ℚ)
        - (⌊(h : ℚ) * fitRatio w h W H⌋ : ℚ) * (w : ℚ) := by
      nlinarith [mul_lt_mul_of_pos_right t3 hh0,
        mul_le_mul_of_nonneg_right t4 hw0.le]
    constructor
    · have hz : -(h : ℤ) < ⌊(w : ℚ) * fitRatio w h W H⌋ * (h : ℤ)
          - ⌊(h : ℚ) * fitRatio w h W H⌋ * (w : ℤ) := by exact_mod_cast hl
      have hmax : (h : ℤ) ≤ max (w : ℤ) (h : ℤ) := le_max_right _ _
      linarith
    · have hz : ⌊(w : ℚ) * fitRatio w h W H⌋ * (h : ℤ)
          - ⌊(h : ℚ) * fitRatio w h W H⌋ * (w : ℤ) < (w : ℤ) := by
        exact_mod_cast hu
      have hmax : (w : ℤ) ≤ max (w : ℤ) (h : ℤ) := le_max_left _ _
      linarith

/-- C7 witness: the fit properties instantiated on a 2×1 raster in a 4×4
canvas. -/
theorem c7_aspect_fit_witness :
    (fitDims 2 1 4 4).1 ≤ 4 ∧ (fitDims 2 1 4 4).2 ≤ 4 ∧
    ((fitDims 2 1 4 4).1 = 4 ∨ (fitDims 2 1 4 4).2 = 4) ∧
    |((fitDims 2 1 4 4).1 : ℤ) * (1 : ℤ) - ((fitDims 2 1 4 4).2 : ℤ) * (2 : ℤ)|
      < max (2 : ℤ) (1 : ℤ) :=
  c7_aspect_fit 2 1 4 4 (by omega) (by omega)

/-- C2, original claim refuted: the canvas pixel dimension is computed by
Python `int()` truncation, not rounding to nearest; at the configured
target width 595 pt and the first attempt's dpi 150 the produced canvas
width is 1239 while `round(595·150/72) = 1240`. -/
theorem c2_canvas_dims_counterexample :
    compose_canvases [(1, 1)] 595 842 150 = [(1239, 1754)] ∧
    round ((595 * 150 : ℚ) / 72) = (1240 : ℤ) ∧
    (1239 : ℤ) ≠ (1240 : ℤ) := by
  refine ⟨compose_canvases_unit, ?_, by decide⟩
  rw [round_eq]
  norm_num

/-- C2 (amended): every canvas produced in one attempt has identical
pixel dimensions, equal to `⌊W_pt·dpi/72⌋ × ⌊H_pt·dpi/72⌋` (floor, i.e.
Python `int()` truncation) — not round-to-nearest. -/
theorem c2_canvas_dims (images : List (ℕ × ℕ)) (wpt hpt : ℕ) (dpi : ℤ)
    (p : ℕ × ℕ) (hp : p ∈ compose_canvases images wpt hpt dpi) :
    p = (targetPx wpt dpi, targetPx hpt dpi) := by
  simp only [compose_canvases, List.mem_map] at hp
  obtain ⟨a, ha, heq⟩ := hp
  split_ifs at heq with hcond
  · obtain ⟨h1, h2⟩ := hcond
    rw [← heq]
    exact Prod.ext h1 h2
  · exact heq.symm

/-- C2 witness: the canvas-dimension formula instantiated on a unit
raster at the configured A4 target and the starting dpi. -/
theorem c2_canvas_dims_witness :
    (1239, 1754) ∈ compose_canvases [(1, 1)] 595 842 150 ∧
    ((1239, 1754) : ℕ × ℕ) = (targetPx 595 150, targetPx 842 150) :=
  ⟨by rw [compose_canvases_unit]; exact List.mem_singleton.mpr rfl,
    c2_canvas_dims [(1, 1)] 595 842 150 (1239, 1754)
      (by rw [compose_canvases_unit]; exact List.mem_singleton.mpr rfl)⟩

/-- C8: when the scaled raster exactly fills the canvas in both axes, the
integer floor-division margins are zero and the composed page is
pixel-for-pixel the same grid as pasting the raster at the origin of a
white canvas of the same size. -/
theorem c8_exact_fill (resized : Img) (W H : ℕ)
    (hw : resized.w = W) (hh : resized.h = H) :
    ((W - resized.w) / 2 = 0 ∧ (H - resized.h) / 2 = 0) ∧
    (composePage resized W H).grid
      = (paste (newCanvas W H) resized 0 0).grid := by
  subst hw
  subst hh
  refine ⟨⟨by omega, by omega⟩, ?_⟩
  rw [composePage, if_pos ⟨rfl, rfl⟩]
  unfold Img.grid paste newCanvas
  dsimp only
  apply List.map_congr_left
  intro y hy
  apply List.map_congr_left
  intro x hx
  rw [List.mem_range] at hy hx
  rw [if_pos]
  · simp
  · exact ⟨Nat.zero_le _, by omega, Nat.zero_le _, by omega⟩

/-- C8 witness: the exact-fill equivalence instantiated on a concrete
2×3 image. -/
theorem c8_exact_fill_witness :
    ((2 - imgW.w) / 2 = 0 ∧ (3 - imgW.h) / 2 = 0) ∧
    (composePage imgW 2 3).grid = (paste (newCanvas 2 3) imgW 0 0).grid :=
  c8_exact_fill imgW 2 3 rfl rfl

end Compresspdf
